import Mathlib

/-!
Shallow embedding of the biscuit-cli input-resolution and command-pipeline
subsystem (src/main.rs, src/cli.rs), used to check the natural-language
specification against the code.

The embedding models each subcommand handler of `main.rs` as a computation in
a simple effect monad `M`: an environment `Env` supplies the contents of
stdin, files and the editor buffer, together with the outcomes of the external
collaborator calls (key objects, token objects, builders), and a run returns
an `Except Err` result paired with the ordered list of I/O effects performed.

The repository modules `input.rs` and `inspect.rs` are not part of the source
tree given here; the definitions taken from them (input-source resolvers and
the stdin-conflict validators) are modelled from the specification and marked
as such in their doc comments.  Everything else is translated from
`src/main.rs` / `src/cli.rs`.
-/

namespace BiscuitCli

/-- Byte strings are lists of naturals; a well-formed byte is `< 256`. -/
abbrev Bytes := List Nat

/-- I/O effects performed by a command run, in order. -/
inductive Effect where
  | readStdinEff : Effect
  | readFileEff (path : String) : Effect
  | openEditorEff : Effect
  | writeStdoutEff (b : Bytes) : Effect
deriving DecidableEq

/-- Error outcomes of a command, following the spec's error taxonomy (spec §7)
plus `panicked` for the `unreachable!()` / `expect` / failed-`println!` aborts
in `main.rs`. -/
inductive Err where
  | ioError : Err
  | decodeError : Err
  | invalidText : Err
  | multipleStdinConsumers : Err
  | editorFailure : Err
  | delegateFailure : Err
  | panicked : Err
  | bailed (msg : String) : Err
deriving DecidableEq

/-- Key encodings (input.rs `KeyFormat`, used by cli.rs and main.rs). -/
inductive KeyFormat where
  | raw : KeyFormat
  | hex : KeyFormat
  | pem : KeyFormat
deriving DecidableEq

/-- Key algorithms (input.rs `Algorithm`). -/
inductive Algorithm where
  | ed25519 : Algorithm
  | secp256r1 : Algorithm
deriving DecidableEq

/-- Token payload encodings (input.rs `BiscuitFormat`). -/
inductive BiscuitFormat where
  | rawBiscuit : BiscuitFormat
  | base64Biscuit : BiscuitFormat
deriving DecidableEq

/-- Key-material sources (input.rs `KeyBytes`), as constructed in main.rs. -/
inductive KeyBytes where
  | hexString (s : String) : KeyBytes
  | pemString (s : String) : KeyBytes
  | fromStdin (f : KeyFormat) : KeyBytes
  | fromFile (f : KeyFormat) (path : String) : KeyBytes
deriving DecidableEq

/-- Token / request / third-party-block payload sources (input.rs
`BiscuitBytes`), as constructed in main.rs. -/
inductive BiscuitBytes where
  | fromStdin (f : BiscuitFormat) : BiscuitBytes
  | fromFile (f : BiscuitFormat) (path : String) : BiscuitBytes
  | base64String (s : String) : BiscuitBytes
deriving DecidableEq

/-- Datalog source-text origins (input.rs `DatalogInput`), as constructed in
main.rs. -/
inductive DatalogInput where
  | fromStdin : DatalogInput
  | fromFile (path : String) : DatalogInput
  | datalogString (s : String) : DatalogInput
  | fromEditor : DatalogInput
deriving DecidableEq

/-- Opaque carrier for clap-parsed datalog parameters (input.rs `Param`). -/
abbrev Param := String

/-- Opaque carrier for clap-parsed TTL values (input.rs `Ttl`). -/
abbrev Ttl := String

/-- Opaque handles for external collaborator objects. -/
abbrev PrivateKeyH := Nat

/-- Opaque handle for a key pair collaborator object. -/
abbrev KeyPairH := Nat

/-- Opaque handle for a token collaborator object. -/
abbrev BiscuitH := Nat

/-- Opaque handle for a block-builder collaborator object. -/
abbrev BuilderH := Nat

/-- Opaque handle for a third-party-request collaborator object. -/
abbrev RequestH := Nat

/-- Opaque handle for a third-party-block collaborator object. -/
abbrev BlockH := Nat

/-- The bytes of a string, used when a textual payload flows into a byte
stream (`String::into_bytes` in the source). -/
def strBytes (s : String) : Bytes := s.data.map Char.toNat

/-- URL-safe base64 alphabet, as used by the token collaborator's
`to_base64`/`serialize_base64` (sextet to ASCII code). -/
def b64char (n : Nat) : Nat :=
  if n < 26 then 65 + n
  else if n < 52 then 97 + (n - 26)
  else if n < 62 then 48 + (n - 52)
  else if n = 62 then 45
  else 95

/-- Inverse of the URL-safe base64 alphabet (ASCII code to sextet). -/
def b64inv (c : Nat) : Option Nat :=
  if 65 ≤ c ∧ c ≤ 90 then some (c - 65)
  else if 97 ≤ c ∧ c ≤ 122 then some (26 + (c - 97))
  else if 48 ≤ c ∧ c ≤ 57 then some (52 + (c - 48))
  else if c = 45 then some 62
  else if c = 95 then some 63
  else none

/-- Base64 encoding of a byte string (URL-safe alphabet, with padding). -/
def base64Encode : Bytes → Bytes
  | [] => []
  | [a] => [b64char (a / 4), b64char (a % 4 * 16), 61, 61]
  | [a, b] => [b64char (a / 4), b64char (a % 4 * 16 + b / 16), b64char (b % 16 * 4), 61]
  | a :: b :: c :: rest =>
      b64char (a / 4) :: b64char (a % 4 * 16 + b / 16) :: b64char (b % 16 * 4 + c / 64)
        :: b64char (c % 64) :: base64Encode rest

/-- Base64 decoding of a byte string (URL-safe alphabet, with padding);
`none` on malformed input. -/
def base64Decode : Bytes → Option Bytes
  | [] => some []
  | c1 :: c2 :: c3 :: c4 :: rest =>
      if c3 = 61 then
        if c4 = 61 ∧ rest = [] then
          match b64inv c1, b64inv c2 with
          | some s1, some s2 => if s2 % 16 = 0 then some [s1 * 4 + s2 / 16] else none
          | _, _ => none
        else none
      else if c4 = 61 then
        if rest = [] then
          match b64inv c1, b64inv c2, b64inv c3 with
          | some s1, some s2, some s3 =>
              if s3 % 4 = 0 then some [s1 * 4 + s2 / 16, s2 % 16 * 16 + s3 / 4] else none
          | _, _, _ => none
        else none
      else
        match b64inv c1, b64inv c2, b64inv c3, b64inv c4, base64Decode rest with
        | some s1, some s2, some s3, some s4, some tail =>
            some ((s1 * 4 + s2 / 16) :: (s2 % 16 * 16 + s3 / 4) :: (s3 % 4 * 64 + s4) :: tail)
        | _, _, _, _, _ => none
  | _ => none

theorem b64char_lt (n : Nat) : b64char n < 256 := by
  unfold b64char; split_ifs <;> omega

theorem b64char_ne_61 (n : Nat) : b64char n ≠ 61 := by
  unfold b64char; split_ifs <;> omega

theorem b64inv_b64char (n : Nat) (h : n < 64) : b64inv (b64char n) = some n := by
  interval_cases n <;> rfl

theorem base64_roundtrip (l : Bytes) (h : ∀ x ∈ l, x < 256) :
    base64Decode (base64Encode l) = some l := by
  induction l using base64Encode.induct with
  | case1 => rfl
  | case2 a =>
      have ha : a < 256 := h a (by simp)
      have i1 := b64inv_b64char (a / 4) (by omega)
      have i2 := b64inv_b64char (a % 4 * 16) (by omega)
      have e0 : a % 4 * 16 % 16 = 0 := by omega
      simp [base64Encode, base64Decode, i1, i2, e0]
      omega
  | case3 a b =>
      have ha : a < 256 := h a (by simp)
      have hb : b < 256 := h b (by simp)
      have i1 := b64inv_b64char (a / 4) (by omega)
      have i2 := b64inv_b64char (a % 4 * 16 + b / 16) (by omega)
      have i3 := b64inv_b64char (b % 16 * 4) (by omega)
      have e0 : b % 16 * 4 % 4 = 0 := by omega
      simp [base64Encode, base64Decode, b64char_ne_61, i1, i2, i3, e0]
      omega
  | case4 a b c rest ih =>
      have ha : a < 256 := h a (by simp)
      have hb : b < 256 := h b (by simp)
      have hc : c < 256 := h c (by simp)
      have hrest : ∀ x ∈ rest, x < 256 := fun x hx => h x (by simp [hx])
      have i1 := b64inv_b64char (a / 4) (by omega)
      have i2 := b64inv_b64char (a % 4 * 16 + b / 16) (by omega)
      have i3 := b64inv_b64char (b % 16 * 4 + c / 64) (by omega)
      have i4 := b64inv_b64char (c % 64) (by omega)
      simp [base64Encode, base64Decode, b64char_ne_61, i1, i2, i3, i4, ih hrest]
      omega

/-- The run environment: contents of the input streams and the outcomes of
every external collaborator call (spec §6).  A collaborator returning
`none` models that call failing. -/
structure Env where
  stdinData : Option Bytes
  fileData : String → Option Bytes
  editorData : Option String
  stdoutOk : Bool
  utf8Decode : Bytes → Option String
  hexKeyDecode : String → Option Bytes
  pemKeyDecode : String → Option Bytes
  keyDecode : KeyFormat → Bytes → Option Bytes
  privateKeyOfBytes : Bytes → Option Algorithm → Option PrivateKeyH
  keypairOfPrivate : PrivateKeyH → KeyPairH
  keypairNew : Algorithm → KeyPairH
  privateToBytes : KeyPairH → Bytes
  publicToBytes : KeyPairH → Bytes
  privateToPrefixedHex : KeyPairH → String
  publicDisplay : KeyPairH → String
  privateToPem : KeyPairH → Option String
  publicToPem : KeyPairH → Option String
  buildAuthority : String → List Param → Option String → BuilderH → Option BuilderH
  buildBlock : String → List Param → Option String → BuilderH → Option BuilderH
  checkExpiration : BuilderH → Ttl → BuilderH
  rootKeyIdSet : BuilderH → Nat → BuilderH
  biscuitBuild : BuilderH → KeyPairH → Option BiscuitH
  biscuitParse : Bytes → Option BiscuitH
  requestParse : Bytes → Option RequestH
  biscuitAppend : BiscuitH → BuilderH → Option BiscuitH
  biscuitSeal : BiscuitH → Option BiscuitH
  biscuitToVec : BiscuitH → Option Bytes
  thirdPartyRequest : BiscuitH → Option RequestH
  requestSerialize : RequestH → Option Bytes
  createBlock : RequestH → PrivateKeyH → BuilderH → Option BlockH
  blockSerialize : BlockH → Option Bytes
  appendThirdParty : BiscuitH → Bytes → Option BiscuitH

/-- A command computation: given an environment it produces a result and the
ordered list of I/O effects it performed. -/
def M (α : Type) : Type := Env → Except Err α × List Effect

instance : Monad M where
  pure a := fun _ => (Except.ok a, [])
  bind m f := fun env =>
    match m env with
    | (Except.ok a, t) => ((f a env).1, t ++ (f a env).2)
    | (Except.error e, t) => (Except.error e, t)

/-- Abort with an error (Rust `bail!` / `?` on an error value). -/
def throwM (e : Err) : M α := fun _ => (Except.error e, [])

/-- Read all of standard input. -/
def readStdinM : M Bytes := fun env =>
  match env.stdinData with
  | some b => (Except.ok b, [Effect.readStdinEff])
  | none => (Except.error Err.ioError, [Effect.readStdinEff])

/-- Read all of a file. -/
def readFileM (p : String) : M Bytes := fun env =>
  match env.fileData p with
  | some b => (Except.ok b, [Effect.readFileEff p])
  | none => (Except.error Err.ioError, [Effect.readFileEff p])

/-- Run the interactive editor and take its final buffer. -/
def openEditorM : M String := fun env =>
  match env.editorData with
  | some s => (Except.ok s, [Effect.openEditorEff])
  | none => (Except.error Err.editorFailure, [Effect.openEditorEff])

/-- Source `io::stdout().write_all(..)`: the write is attempted; it fails when the
stream is broken. -/
def writeStdoutAll (b : Bytes) : M Unit := fun env =>
  ((if env.stdoutOk then Except.ok () else Except.error Err.ioError),
    [Effect.writeStdoutEff b])

/-- Source `let _ = expr;` in Rust: run the computation and discard its result. -/
def discardResult (m : M α) : M Unit := fun env => (Except.ok (), (m env).2)

/-- Source `println!`: writes the line; aborts the process (panic) when writing to
stdout fails. -/
def printlnM (s : String) : M Unit := fun env =>
  ((if env.stdoutOk then Except.ok () else Except.error Err.panicked),
    [Effect.writeStdoutEff (strBytes s ++ [10])])

/-- Lift an optional value, failing with the given error on `none`. -/
def liftOption (e : Err) : Option α → M α
  | some a => pure a
  | none => throwM e

/-- Consult the environment for a collaborator call's outcome, failing with
the given error when the call fails. -/
def withEnv (f : Env → Option α) (e : Err) : M α := fun env =>
  match f env with
  | some a => (Except.ok a, [])
  | none => (Except.error e, [])

/-- Read a pure value off the environment (an infallible collaborator call). -/
def envPure (f : Env → α) : M α := fun env => (Except.ok (f env), [])

/-- Capture a computation's result without propagating its error (binding a
`Result` to a variable in Rust without applying `?` to it yet). -/
def attemptM (m : M α) : M (Except Err α) := fun env => (Except.ok (m env).1, (m env).2)

/-- The stdout writes contained in an effect trace, in order. -/
def writesOf (t : List Effect) : List Bytes :=
  t.filterMap fun e =>
    match e with
    | Effect.writeStdoutEff b => some b
    | _ => none

/-- Modelled from the spec: input.rs (not under src/) declares whether a
datalog source is bound to standard input; per the spec's StdinBudget
invariant a source is stdin-bound when it is the `FromStdin` variant or
carries the stdin sentinel path. -/
def DatalogInput.stdinBound : DatalogInput → Bool
  | DatalogInput.fromStdin => true
  | DatalogInput.fromFile p => p = "-"
  | _ => false

/-- Modelled from the spec: input.rs (not under src/) declares whether a
token/request/block payload source is bound to standard input. -/
def BiscuitBytes.stdinBound : BiscuitBytes → Bool
  | BiscuitBytes.fromStdin _ => true
  | BiscuitBytes.fromFile _ p => p = "-"
  | _ => false

/-- Modelled from the spec: input.rs's `ensure_no_input_conflict` is not
under src/.  Per spec §4.3 and the StdinBudget invariant, having both the
datalog source and the token source bound to standard input is rejected with
`MultipleStdinConsumers`, before any resolver executes. -/
def ensure_no_input_conflict (d : DatalogInput) (b : BiscuitBytes) : M Unit :=
  if d.stdinBound && b.stdinBound then throwM Err.multipleStdinConsumers else pure ()

/-- Modelled from the spec: input.rs's `ensure_no_input_conflict_third_party`
is not under src/.  Same StdinBudget conflict rule, between a third-party
block payload source and the token source. -/
def ensure_no_input_conflict_third_party (pay tok : BiscuitBytes) : M Unit :=
  if pay.stdinBound && tok.stdinBound then throwM Err.multipleStdinConsumers else pure ()

/-- Modelled from the spec: input.rs's private-key resolver (`resolve_key`,
spec §4.2) is not under src/.  A literal is decoded directly; a file/stdin
source is read in full and then decoded per its format; the key object is
produced by the key collaborator from the decoded bytes and the optional
algorithm tag. -/
def read_private_key_from (kb : KeyBytes) (alg : Option Algorithm) : M PrivateKeyH :=
  match kb with
  | KeyBytes.hexString s => do
      let bytes ← withEnv (fun e => e.hexKeyDecode s) Err.decodeError
      withEnv (fun e => e.privateKeyOfBytes bytes alg) Err.delegateFailure
  | KeyBytes.pemString s => do
      let bytes ← withEnv (fun e => e.pemKeyDecode s) Err.decodeError
      withEnv (fun e => e.privateKeyOfBytes bytes alg) Err.delegateFailure
  | KeyBytes.fromStdin f => do
      let raw ← readStdinM
      let bytes ← withEnv (fun e => e.keyDecode f raw) Err.decodeError
      withEnv (fun e => e.privateKeyOfBytes bytes alg) Err.delegateFailure
  | KeyBytes.fromFile f p => do
      let raw ← readFileM p
      let bytes ← withEnv (fun e => e.keyDecode f raw) Err.decodeError
      withEnv (fun e => e.privateKeyOfBytes bytes alg) Err.delegateFailure

/-- Modelled from the spec: input.rs's datalog text resolver
(`resolve_datalog`, spec §4.2) is not under src/.  File/stdin sources are
read and must be valid UTF-8 text; a literal is returned as is; the editor
source invokes the editor collaborator. -/
def read_datalog_text (d : DatalogInput) : M String :=
  match d with
  | DatalogInput.fromStdin => do
      let b ← readStdinM
      withEnv (fun e => e.utf8Decode b) Err.invalidText
  | DatalogInput.fromFile p => do
      let b ← readFileM p
      withEnv (fun e => e.utf8Decode b) Err.invalidText
  | DatalogInput.datalogString s => pure s
  | DatalogInput.fromEditor => openEditorM

/-- Modelled from the spec: input.rs's `read_authority_from` is not under
src/.  Resolves the datalog text and feeds it, the params and the context to
the authority block builder collaborator. -/
def read_authority_from (d : DatalogInput) (params : List Param)
    (context : Option String) (b : BuilderH) : M BuilderH := do
  let text ← read_datalog_text d
  withEnv (fun e => e.buildAuthority text params context b) Err.delegateFailure

/-- Modelled from the spec: input.rs's `read_block_from` is not under src/.
Resolves the datalog text and feeds it, the params and the context to the
block builder collaborator. -/
def read_block_from (d : DatalogInput) (params : List Param)
    (context : Option String) (b : BuilderH) : M BuilderH := do
  let text ← read_datalog_text d
  withEnv (fun e => e.buildBlock text params context b) Err.delegateFailure

/-- Modelled from the spec: the byte-fetch step of input.rs's token/request
resolvers (`resolve_token`, spec §4.2) is not under src/.  File/stdin
sources read the stream and base64-decode unless the raw format is set; a
literal is base64 text. -/
def biscuit_bytes_of (src : BiscuitBytes) : M Bytes :=
  match src with
  | BiscuitBytes.fromStdin BiscuitFormat.rawBiscuit => readStdinM
  | BiscuitBytes.fromStdin BiscuitFormat.base64Biscuit => do
      let b ← readStdinM
      liftOption Err.decodeError (base64Decode b)
  | BiscuitBytes.fromFile BiscuitFormat.rawBiscuit p => readFileM p
  | BiscuitBytes.fromFile BiscuitFormat.base64Biscuit p => do
      let b ← readFileM p
      liftOption Err.decodeError (base64Decode b)
  | BiscuitBytes.base64String s => liftOption Err.decodeError (base64Decode (strBytes s))

/-- Modelled from the spec: input.rs's `read_biscuit_from` is not under
src/.  Fetches the payload bytes then parses them with the token
collaborator. -/
def read_biscuit_from (src : BiscuitBytes) : M BiscuitH := do
  let bytes ← biscuit_bytes_of src
  withEnv (fun e => e.biscuitParse bytes) Err.delegateFailure

/-- Modelled from the spec: input.rs's `read_request_from` is not under
src/.  Fetches the payload bytes then parses them with the third-party
request collaborator. -/
def read_request_from (src : BiscuitBytes) : M RequestH := do
  let bytes ← biscuit_bytes_of src
  withEnv (fun e => e.requestParse bytes) Err.delegateFailure

/-- Modelled from the spec: input.rs's `append_third_party_from` is not
under src/.  Fetches the already-signed third-party block payload bytes and
appends them to the token through the token collaborator. -/
def append_third_party_from (b : BiscuitH) (src : BiscuitBytes) : M BiscuitH := do
  let bytes ← biscuit_bytes_of src
  withEnv (fun e => e.appendThirdParty b bytes) Err.delegateFailure

/-- cli.rs `common_args::BiscuitInputArgs`. -/
structure BiscuitInputArgs where
  biscuit_file : String
  raw_input : Bool
deriving DecidableEq

/-- cli.rs `common_args::PrivateKeyArgs`. -/
structure PrivateKeyArgs where
  private_key : Option String
  private_key_file : Option String
  private_key_format : KeyFormat
  private_key_algorithm : Option Algorithm
deriving DecidableEq

/-- cli.rs `common_args::ParamArg`. -/
structure ParamArg where
  param : List Param
deriving DecidableEq

/-- cli.rs `common_args::BlockArgs`. -/
structure BlockArgs where
  block : Option String
  block_file : Option String
  context : Option String
  add_ttl : Option Ttl
deriving DecidableEq

/-- cli.rs `KeyPairCmd`. -/
structure KeyPairCmd where
  from_private_key : Option String
  from_file : Option String
  from_format : KeyFormat
  from_algorithm : Option Algorithm
  key_algorithm : Algorithm
  key_output_format : KeyFormat
  only_public_key : Bool
  only_private_key : Bool
deriving DecidableEq

/-- cli.rs `Generate`. -/
structure Generate where
  authority_file : Option String
  root_key_id : Option Nat
  param_arg : ParamArg
  raw : Bool
  private_key_args : PrivateKeyArgs
  context : Option String
  add_ttl : Option Ttl
deriving DecidableEq

/-- cli.rs `Attenuate`. -/
structure Attenuate where
  biscuit_input_args : BiscuitInputArgs
  raw_output : Bool
  block_args : BlockArgs
  param_arg : ParamArg
deriving DecidableEq

/-- cli.rs `GenerateThirdPartyBlockRequest`. -/
structure GenerateThirdPartyBlockRequest where
  biscuit_input_args : BiscuitInputArgs
  raw_output : Bool
deriving DecidableEq

/-- cli.rs `GenerateThirdPartyBlock`. -/
structure GenerateThirdPartyBlock where
  request_file : String
  raw_input : Bool
  private_key_args : PrivateKeyArgs
  raw_output : Bool
  block_args : BlockArgs
  param_arg : ParamArg
deriving DecidableEq

/-- cli.rs `AppendThirdPartyBlock`. -/
structure AppendThirdPartyBlock where
  biscuit_input_args : BiscuitInputArgs
  raw_output : Bool
  block_contents : Option String
  block_contents_file : Option String
  raw_block_contents : Bool
deriving DecidableEq

/-- cli.rs `Seal`. -/
structure Seal where
  biscuit_input_args : BiscuitInputArgs
  raw_output : Bool
deriving DecidableEq

/-- Token-source construction shared by `handle_attenuate` (main.rs 181-194),
`handle_generate_request` (234-247), `handle_append_third_party_block`
(341-358) and `handle_seal` (395-405): pick the format from the raw-input
flag, and reinterpret the stdin sentinel path as the stdin source. -/
def biscuit_from_of_args (args : BiscuitInputArgs) : BiscuitBytes :=
  let fmt := if args.raw_input then BiscuitFormat.rawBiscuit else BiscuitFormat.base64Biscuit
  if args.biscuit_file = "-" then BiscuitBytes.fromStdin fmt
  else BiscuitBytes.fromFile fmt args.biscuit_file

/-- Modelled from the spec: the inspect command's token-source construction
lives in inspect.rs, which is not under src/.  Per the spec's TokenSource
invariant, a path equal to the stdin sentinel is reinterpreted as FromStdin
at construction time, exactly as in `biscuit_from_of_args`. -/
def inspect_biscuit_from (args : BiscuitInputArgs) : BiscuitBytes :=
  biscuit_from_of_args args

/-- Datalog block-source construction shared by `handle_attenuate`
(main.rs 196-205) and `handle_generate_third_party_block` (280-289); the
uncovered flag combinations are `unreachable!()`. -/
def block_from_of_args (b : BlockArgs) : M DatalogInput :=
  match b.block_file, b.block with
  | some file, none => pure (DatalogInput.fromFile file)
  | none, some str => pure (DatalogInput.datalogString str)
  | none, none => pure DatalogInput.fromEditor
  | _, _ => throwM Err.panicked

/-- Source `handle_generate`'s authority-source construction (main.rs 131-135). -/
def generate_authority_from (g : Generate) : DatalogInput :=
  match g.authority_file with
  | some path => if path = "-" then DatalogInput.fromStdin else DatalogInput.fromFile path
  | none => DatalogInput.fromEditor

/-- Source `handle_generate`'s private-key source construction (main.rs 138-148);
the uncovered flag combinations are `unreachable!()`. -/
def generate_key_bytes (p : PrivateKeyArgs) : M KeyBytes :=
  match p.private_key, p.private_key_file, p.private_key_format with
  | some s, none, KeyFormat.hex => pure (KeyBytes.hexString s)
  | some s, none, KeyFormat.pem => pure (KeyBytes.pemString s)
  | none, some file, f => pure (KeyBytes.fromFile f file)
  | _, _, _ => throwM Err.panicked

/-- Source `handle_generate_third_party_block`'s private-key source construction
(main.rs 294-309); the uncovered flag combinations are `unreachable!()`. -/
def g3pb_key_bytes (p : PrivateKeyArgs) : M KeyBytes :=
  match p.private_key, p.private_key_file, p.private_key_format with
  | some s, none, KeyFormat.hex => pure (KeyBytes.hexString s)
  | some s, none, KeyFormat.pem => pure (KeyBytes.pemString s)
  | none, some file, KeyFormat.raw => pure (KeyBytes.fromFile KeyFormat.raw file)
  | none, some file, f => pure (KeyBytes.fromFile f file)
  | _, _, _ => throwM Err.panicked

/-- Source `handle_generate_third_party_block`'s request-source construction
(main.rs 265-278). -/
def g3pb_request_from (g : GenerateThirdPartyBlock) : BiscuitBytes :=
  let fmt := if g.raw_input then BiscuitFormat.rawBiscuit else BiscuitFormat.base64Biscuit
  if g.request_file = "-" then BiscuitBytes.fromStdin fmt
  else BiscuitBytes.fromFile fmt g.request_file

/-- Source `handle_append_third_party_block`'s block-payload source construction
(main.rs 360-377): the stdin sentinel on the block-contents file yields the
stdin source; the uncovered flag combinations are `unreachable!()`. -/
def append_block_from (a : AppendThirdPartyBlock) : M BiscuitBytes :=
  let fmt := if a.raw_block_contents then BiscuitFormat.rawBiscuit else BiscuitFormat.base64Biscuit
  match a.block_contents_file, a.block_contents with
  | some file, none =>
      if file = "-" then pure (BiscuitBytes.fromStdin fmt)
      else pure (BiscuitBytes.fromFile fmt file)
  | none, some str => pure (BiscuitBytes.base64String str)
  | _, _ => throwM Err.panicked

/-- Source `keypair`'s private-key source construction (main.rs 47-63): a raw
literal bails; a from-file path equal to the stdin sentinel becomes the
stdin source; the uncovered flag combinations are `unreachable!()`. -/
def keypair_private_key_from (c : KeyPairCmd) : M (Option KeyBytes) :=
  match c.from_private_key, c.from_file, c.from_format with
  | some _, _, KeyFormat.raw =>
      throwM (Err.bailed "raw key input is only allowed from a file or stdin")
  | some s, none, KeyFormat.hex => pure (some (KeyBytes.hexString s))
  | some s, none, KeyFormat.pem => pure (some (KeyBytes.pemString s))
  | none, some path, f =>
      pure (some (if path = "-" then KeyBytes.fromStdin f else KeyBytes.fromFile f path))
  | none, none, _ => pure none
  | _, _, _ => throwM Err.panicked

/-- Source `biscuit.to_vec()` through the token collaborator. -/
def biscuit_to_vec (b : BiscuitH) : M Bytes :=
  withEnv (fun e => e.biscuitToVec b) Err.delegateFailure

/-- Source `biscuit.to_base64().into_bytes()`: the collaborator base64-encodes the
serialized token bytes. -/
def biscuit_to_base64_bytes (b : BiscuitH) : M Bytes := do
  let v ← biscuit_to_vec b
  pure (base64Encode v)

/-- The output-encoding step shared verbatim by `handle_attenuate`
(main.rs 224-228), `handle_append_third_party_block` (385-389) and
`handle_seal` (409-413): raw serialized bytes when the raw flag is set,
base64 text of them otherwise. -/
def encode_token_output (raw : Bool) (b : BiscuitH) : M Bytes :=
  if raw then biscuit_to_vec b else biscuit_to_base64_bytes b

/-- Source `request.serialize()` through the request collaborator. -/
def request_serialize (r : RequestH) : M Bytes :=
  withEnv (fun e => e.requestSerialize r) Err.delegateFailure

/-- Source `handle_generate_request`'s output-encoding step (main.rs 253-257). -/
def encode_request_output (raw : Bool) (r : RequestH) : M Bytes :=
  if raw then request_serialize r
  else do
    let v ← request_serialize r
    pure (base64Encode v)

/-- Source `block.serialize()` through the third-party block collaborator. -/
def block_serialize (b : BlockH) : M Bytes :=
  withEnv (fun e => e.blockSerialize b) Err.delegateFailure

/-- Source `handle_generate_third_party_block`'s output-encoding step
(main.rs 331-335). -/
def encode_block_output (raw : Bool) (b : BlockH) : M Bytes :=
  if raw then block_serialize b
  else do
    let v ← block_serialize b
    pure (base64Encode v)

/-- Source `handle_generate`'s output-encoding step (main.rs 168-175); serialization
failure panics here (`expect`), unlike the other commands. -/
def encode_generate_output (raw : Bool) (b : BiscuitH) : M Bytes :=
  if raw then withEnv (fun e => e.biscuitToVec b) Err.panicked
  else do
    let v ← withEnv (fun e => e.biscuitToVec b) Err.panicked
    pure (base64Encode v)

/-- Source `if let Some(ttl) = &args.add_ttl { builder = builder.check_expiration_date(..) }`
(main.rs 161-163, 219-221, 325-327). -/
def with_ttl_check (b : BuilderH) (o : Option Ttl) : M BuilderH :=
  match o with
  | some ttl => envPure (fun e => e.checkExpiration b ttl)
  | none => pure b

/-- Source `if let Some(root_key_id) = &generate.root_key_id { builder = builder.root_key_id(..) }`
(main.rs 164-166). -/
def with_root_key_id (b : BuilderH) (o : Option Nat) : M BuilderH :=
  match o with
  | some rid => envPure (fun e => e.rootKeyIdSet b rid)
  | none => pure b

/-- Source `KeyPair::from(&private_key?)` (main.rs 152): propagate the stored key
resolution error, then derive the key pair. -/
def keypair_from_private_key_result (r : Except Err PrivateKeyH) : M KeyPairH :=
  match r with
  | Except.ok k => envPure (fun e => e.keypairOfPrivate k)
  | Except.error e => throwM e

/-- Source `&private_key?` (main.rs 329): propagate the stored key resolution
error. -/
def unwrap_private_key (r : Except Err PrivateKeyH) : M PrivateKeyH :=
  match r with
  | Except.ok k => pure k
  | Except.error e => throwM e

/-- Source `handle_keypair`'s optional key read (main.rs 65-69). -/
def keypair_read_private_key (o : Option KeyBytes) (alg : Option Algorithm) :
    M (Option PrivateKeyH) :=
  match o with
  | some kb => do
      let k ← read_private_key_from kb alg
      pure (some k)
  | none => pure none

/-- Source `handle_keypair`'s key-pair derivation (main.rs 71-75): from the provided
private key when there is one, freshly generated otherwise. -/
def keypair_derive (o : Option PrivateKeyH) (alg : Algorithm) : M KeyPairH :=
  match o with
  | some priv => envPure (fun e => e.keypairOfPrivate priv)
  | none => envPure (fun e => e.keypairNew alg)

/-- The output stage of `handle_keypair` (main.rs 77-126): one arm per
`{only-private, only-public} × {raw, hex, pem}` shape; both keys in raw
format bail; both-keys shapes print a provenance line first; raw single-key
shapes write the key bytes with the write result discarded. -/
def keypair_output (c : KeyPairCmd) (from_provided : Bool) (kp : KeyPairH) : M Unit :=
  match c.only_private_key, c.only_public_key, c.key_output_format with
  | false, false, KeyFormat.raw =>
      throwM (Err.bailed "Only a single key can be returned in a binary format")
  | false, false, KeyFormat.hex => do
      printlnM (if from_provided then "Generating a keypair from the provided private key"
        else "Generating a new random keypair")
      let s1 ← envPure (fun e => e.privateToPrefixedHex kp)
      printlnM ("Private key: " ++ s1)
      let s2 ← envPure (fun e => e.publicDisplay kp)
      printlnM ("Public key: " ++ s2)
  | false, false, KeyFormat.pem => do
      printlnM (if from_provided then "Generating a keypair for the provided private key"
        else "Generating a new random keypair")
      let s1 ← withEnv (fun e => e.privateToPem kp) Err.delegateFailure
      let s2 ← withEnv (fun e => e.publicToPem kp) Err.delegateFailure
      printlnM (s1 ++ s2)
  | true, false, KeyFormat.raw => do
      let b ← envPure (fun e => e.privateToBytes kp)
      discardResult (writeStdoutAll b)
  | true, false, KeyFormat.hex => do
      let s ← envPure (fun e => e.privateToPrefixedHex kp)
      printlnM s
  | true, false, KeyFormat.pem => do
      let s ← withEnv (fun e => e.privateToPem kp) Err.delegateFailure
      printlnM s
  | false, true, KeyFormat.raw => do
      let b ← envPure (fun e => e.publicToBytes kp)
      discardResult (writeStdoutAll b)
  | false, true, KeyFormat.hex => do
      let s ← envPure (fun e => e.publicDisplay kp)
      printlnM s
  | false, true, KeyFormat.pem => do
      let s ← withEnv (fun e => e.publicToPem kp) Err.delegateFailure
      printlnM s
  | true, true, _ => throwM Err.panicked

/-- Source `handle_keypair` (main.rs 46-128). -/
def handle_keypair (c : KeyPairCmd) : M Unit := do
  let private_key_from ← keypair_private_key_from c
  let private_key ← keypair_read_private_key private_key_from c.from_algorithm
  let key_pair ← keypair_derive private_key c.key_algorithm
  keypair_output c private_key_from.isSome key_pair

/-- Source `handle_generate` (main.rs 130-178). -/
def handle_generate (g : Generate) : M Unit := do
  let authority_from := generate_authority_from g
  let kb ← generate_key_bytes g.private_key_args
  let private_key ← attemptM (read_private_key_from kb g.private_key_args.private_key_algorithm)
  let root ← keypair_from_private_key_result private_key
  let builder : BuilderH := 0
  let builder ← read_authority_from authority_from g.param_arg.param g.context builder
  let builder ← with_ttl_check builder g.add_ttl
  let builder ← with_root_key_id builder g.root_key_id
  let biscuit ← withEnv (fun e => e.biscuitBuild builder root) Err.panicked
  let encoded ← encode_generate_output g.raw biscuit
  discardResult (writeStdoutAll encoded)

/-- Source `handle_attenuate` (main.rs 180-231). -/
def handle_attenuate (a : Attenuate) : M Unit := do
  let biscuit_from := biscuit_from_of_args a.biscuit_input_args
  let block_from ← block_from_of_args a.block_args
  ensure_no_input_conflict block_from biscuit_from
  let biscuit ← read_biscuit_from biscuit_from
  let block_builder : BuilderH := 0
  let block_builder ← read_block_from block_from a.param_arg.param a.block_args.context block_builder
  let block_builder ← with_ttl_check block_builder a.block_args.add_ttl
  let new_biscuit ← withEnv (fun e => e.biscuitAppend biscuit block_builder) Err.delegateFailure
  let encoded ← encode_token_output a.raw_output new_biscuit
  discardResult (writeStdoutAll encoded)

/-- Source `handle_generate_request` (main.rs 233-260). -/
def handle_generate_request (g : GenerateThirdPartyBlockRequest) : M Unit := do
  let biscuit_from := biscuit_from_of_args g.biscuit_input_args
  let biscuit ← read_biscuit_from biscuit_from
  let request ← withEnv (fun e => e.thirdPartyRequest biscuit) Err.delegateFailure
  let encoded ← encode_request_output g.raw_output request
  discardResult (writeStdoutAll encoded)

/-- Source `handle_generate_third_party_block` (main.rs 262-338). -/
def handle_generate_third_party_block (g : GenerateThirdPartyBlock) : M Unit := do
  let request_from := g3pb_request_from g
  let block_from ← block_from_of_args g.block_args
  ensure_no_input_conflict block_from request_from
  let kb ← g3pb_key_bytes g.private_key_args
  let private_key ← attemptM (read_private_key_from kb g.private_key_args.private_key_algorithm)
  let request ← read_request_from request_from
  let builder : BuilderH := 0
  let builder ← read_block_from block_from g.param_arg.param g.block_args.context builder
  let builder ← with_ttl_check builder g.block_args.add_ttl
  let pk ← unwrap_private_key private_key
  let block ← withEnv (fun e => e.createBlock request pk builder) Err.delegateFailure
  let encoded ← encode_block_output g.raw_output block
  discardResult (writeStdoutAll encoded)

/-- Source `handle_append_third_party_block` (main.rs 340-392). -/
def handle_append_third_party_block (a : AppendThirdPartyBlock) : M Unit := do
  let biscuit_from := biscuit_from_of_args a.biscuit_input_args
  let block_from ← append_block_from a
  ensure_no_input_conflict_third_party block_from biscuit_from
  let biscuit ← read_biscuit_from biscuit_from
  let new_biscuit ← append_third_party_from biscuit block_from
  let encoded ← encode_token_output a.raw_output new_biscuit
  discardResult (writeStdoutAll encoded)

/-- Source `handle_seal` (main.rs 394-416). -/
def handle_seal (s : Seal) : M Unit := do
  let biscuit_from := biscuit_from_of_args s.biscuit_input_args
  let biscuit ← read_biscuit_from biscuit_from
  let new_biscuit ← withEnv (fun e => e.biscuitSeal biscuit) Err.delegateFailure
  let encoded ← encode_token_output s.raw_output new_biscuit
  discardResult (writeStdoutAll encoded)

/-- Whether an `Except` result is an error. -/
def isErr : Except Err α → Bool
  | Except.error _ => true
  | Except.ok _ => false

theorem pure_apply (a : α) (env : Env) : (pure a : M α) env = (Except.ok a, []) := rfl

theorem throwM_apply (e : Err) (env : Env) : (throwM e : M α) env = (Except.error e, []) := rfl

theorem bind_apply (m : M α) (f : α → M β) (env : Env) :
    (m >>= f) env =
      match m env with
      | (Except.ok a, t) => ((f a env).1, t ++ (f a env).2)
      | (Except.error e, t) => (Except.error e, t) := rfl

theorem bind_ok {m : M α} {f : α → M β} {env : Env} {a : α} {t : List Effect}
    (h : m env = (Except.ok a, t)) :
    (m >>= f) env = ((f a env).1, t ++ (f a env).2) := by
  rw [bind_apply, h]

theorem bind_err {m : M α} {f : α → M β} {env : Env} {e : Err} {t : List Effect}
    (h : m env = (Except.error e, t)) :
    (m >>= f) env = (Except.error e, t) := by
  rw [bind_apply, h]

theorem writesOf_nil : writesOf [] = [] := rfl

theorem writesOf_append (s t : List Effect) :
    writesOf (s ++ t) = writesOf s ++ writesOf t := by
  simp [writesOf, List.filterMap_append]

/-- The computation performs no stdout write in any environment. -/
def noWr (m : M α) : Prop := ∀ env, writesOf (m env).2 = []

/-- The computation never fails while stdout is healthy. -/
def neverFails (m : M α) : Prop := ∀ env, env.stdoutOk = true → isErr (m env).1 = false

/-- While stdout is healthy, a failing run of the computation has written
nothing to stdout. -/
def cleanFail (m : M α) : Prop :=
  ∀ env, env.stdoutOk = true → isErr (m env).1 = true → writesOf (m env).2 = []

theorem noWr_pure (a : α) : noWr (pure a : M α) := fun _ => rfl

theorem noWr_throw (e : Err) : noWr (throwM e : M α) := fun _ => rfl

theorem noWr_readStdin : noWr readStdinM := by
  intro env
  cases h : env.stdinData <;> simp [readStdinM, h, writesOf]

theorem noWr_readFile (p : String) : noWr (readFileM p) := by
  intro env
  cases h : env.fileData p <;> simp [readFileM, h, writesOf]

theorem noWr_openEditor : noWr openEditorM := by
  intro env
  cases h : env.editorData <;> simp [openEditorM, h, writesOf]

theorem noWr_withEnv (f : Env → Option α) (e : Err) : noWr (withEnv f e) := by
  intro env
  cases h : f env <;> simp [withEnv, h, writesOf]

theorem noWr_envPure (f : Env → α) : noWr (envPure f) := fun _ => rfl

theorem noWr_liftOption (e : Err) (o : Option α) : noWr (liftOption e o) := by
  cases o <;> intro env <;> rfl

theorem noWr_attempt {m : M α} (h : noWr m) : noWr (attemptM m) := fun env => h env

theorem noWr_bind {m : M α} {f : α → M β} (h1 : noWr m) (h2 : ∀ a, noWr (f a)) :
    noWr (m >>= f) := by
  intro env
  rcases hm : m env with ⟨r, t⟩
  have ht : writesOf t = [] := by have := h1 env; rw [hm] at this; exact this
  cases r with
  | ok a =>
      rw [bind_ok hm]
      simp [writesOf_append, ht, h2 a env]
  | error e =>
      rw [bind_err hm]
      exact ht

theorem cleanFail_of_noWr {m : M α} (h : noWr m) : cleanFail m :=
  fun env _ _ => h env

theorem cleanFail_of_neverFails {m : M α} (h : neverFails m) : cleanFail m := by
  intro env hok hf
  rw [h env hok] at hf
  cases hf

theorem cleanFail_bind {m : M α} {f : α → M β} (h1 : noWr m) (h2 : ∀ a, cleanFail (f a)) :
    cleanFail (m >>= f) := by
  intro env hok hf
  rcases hm : m env with ⟨r, t⟩
  have ht : writesOf t = [] := by have := h1 env; rw [hm] at this; exact this
  cases r with
  | ok a =>
      rw [bind_ok hm] at hf ⊢
      simp only [writesOf_append, ht, List.nil_append]
      exact h2 a env hok hf
  | error e =>
      rw [bind_err hm]
      exact ht

theorem neverFails_pure (a : α) : neverFails (pure a : M α) := fun _ _ => rfl

theorem neverFails_envPure (f : Env → α) : neverFails (envPure f) := fun _ _ => rfl

theorem neverFails_println (s : String) : neverFails (printlnM s) := by
  intro env hok
  simp [printlnM, hok, isErr]

theorem neverFails_discard (m : M α) : neverFails (discardResult m) := fun _ _ => rfl

theorem neverFails_bind {m : M α} {f : α → M β} (h1 : neverFails m)
    (h2 : ∀ a, neverFails (f a)) : neverFails (m >>= f) := by
  intro env hok
  rcases hm : m env with ⟨r, t⟩
  cases r with
  | ok a =>
      rw [bind_ok hm]
      exact h2 a env hok
  | error e =>
      have := h1 env hok
      rw [hm] at this
      cases this

/-- The computation's entire behaviour is independent of stdout health. -/
def stdoutIndep (m : M α) : Prop :=
  ∀ env b, m { env with stdoutOk := b } = m env

theorem indep_pure (a : α) : stdoutIndep (pure a : M α) := fun _ _ => rfl

theorem indep_throw (e : Err) : stdoutIndep (throwM e : M α) := fun _ _ => rfl

theorem indep_readStdin : stdoutIndep readStdinM := fun _ _ => rfl

theorem indep_readFile (p : String) : stdoutIndep (readFileM p) := fun _ _ => rfl

theorem indep_openEditor : stdoutIndep openEditorM := fun _ _ => rfl

theorem indep_withEnv (f : Env → Option α) (e : Err)
    (hf : ∀ env b, f { env with stdoutOk := b } = f env) : stdoutIndep (withEnv f e) := by
  intro env b
  simp [withEnv, hf env b]

theorem indep_envPure (f : Env → α) (hf : ∀ env b, f { env with stdoutOk := b } = f env) :
    stdoutIndep (envPure f) := by
  intro env b
  simp [envPure, hf env b]

theorem indep_liftOption (e : Err) (o : Option α) : stdoutIndep (liftOption e o) := by
  cases o <;> exact fun _ _ => rfl

theorem indep_discard_write (x : Bytes) : stdoutIndep (discardResult (writeStdoutAll x)) :=
  fun _ _ => rfl

theorem indep_attempt {m : M α} (h : stdoutIndep m) : stdoutIndep (attemptM m) := by
  intro env b
  simp [attemptM, h env b]

theorem indep_bind {m : M α} {f : α → M β} (h1 : stdoutIndep m)
    (h2 : ∀ a, stdoutIndep (f a)) : stdoutIndep (m >>= f) := by
  intro env b
  rcases hm : m env with ⟨r, t⟩
  have hm2 : m { env with stdoutOk := b } = (r, t) := by rw [h1 env b, hm]
  cases r with
  | ok a => rw [bind_ok hm2, bind_ok hm, h2 a env b]
  | error e => rw [bind_err hm2, bind_err hm]

theorem noWr_read_private_key_from (kb : KeyBytes) (alg : Option Algorithm) :
    noWr (read_private_key_from kb alg) := by
  cases kb <;>
    first
      | exact noWr_bind (noWr_withEnv _ _) fun _ => noWr_withEnv _ _
      | exact noWr_bind noWr_readStdin fun _ =>
          noWr_bind (noWr_withEnv _ _) fun _ => noWr_withEnv _ _
      | exact noWr_bind (noWr_readFile _) fun _ =>
          noWr_bind (noWr_withEnv _ _) fun _ => noWr_withEnv _ _

theorem noWr_read_datalog_text (d : DatalogInput) : noWr (read_datalog_text d) := by
  cases d <;>
    first
      | exact noWr_bind noWr_readStdin fun _ => noWr_withEnv _ _
      | exact noWr_bind (noWr_readFile _) fun _ => noWr_withEnv _ _
      | exact noWr_pure _
      | exact noWr_openEditor

theorem noWr_read_authority_from (d : DatalogInput) (ps : List Param)
    (ctx : Option String) (b : BuilderH) : noWr (read_authority_from d ps ctx b) :=
  noWr_bind (noWr_read_datalog_text d) fun _ => noWr_withEnv _ _

theorem noWr_read_block_from (d : DatalogInput) (ps : List Param)
    (ctx : Option String) (b : BuilderH) : noWr (read_block_from d ps ctx b) :=
  noWr_bind (noWr_read_datalog_text d) fun _ => noWr_withEnv _ _

theorem noWr_biscuit_bytes_of (src : BiscuitBytes) : noWr (biscuit_bytes_of src) := by
  rcases src with f | ⟨f, p⟩ | s
  · cases f
    · exact noWr_readStdin
    · exact noWr_bind noWr_readStdin fun _ => noWr_liftOption _ _
  · cases f
    · exact noWr_readFile _
    · exact noWr_bind (noWr_readFile _) fun _ => noWr_liftOption _ _
  · exact noWr_liftOption _ _

theorem noWr_read_biscuit_from (src : BiscuitBytes) : noWr (read_biscuit_from src) :=
  noWr_bind (noWr_biscuit_bytes_of src) fun _ => noWr_withEnv _ _

theorem noWr_read_request_from (src : BiscuitBytes) : noWr (read_request_from src) :=
  noWr_bind (noWr_biscuit_bytes_of src) fun _ => noWr_withEnv _ _

theorem noWr_append_third_party_from (b : BiscuitH) (src : BiscuitBytes) :
    noWr (append_third_party_from b src) :=
  noWr_bind (noWr_biscuit_bytes_of src) fun _ => noWr_withEnv _ _

theorem noWr_block_from_of_args (b : BlockArgs) : noWr (block_from_of_args b) := by
  unfold block_from_of_args
  rcases b.block_file with _ | f <;> rcases b.block with _ | s <;>
    first | exact noWr_pure _ | exact noWr_throw _

theorem noWr_generate_key_bytes (p : PrivateKeyArgs) : noWr (generate_key_bytes p) := by
  unfold generate_key_bytes
  rcases p.private_key with _ | s <;> rcases p.private_key_file with _ | f <;>
    rcases p.private_key_format with _ | _ | _ <;>
    first | exact noWr_pure _ | exact noWr_throw _

theorem noWr_g3pb_key_bytes (p : PrivateKeyArgs) : noWr (g3pb_key_bytes p) := by
  unfold g3pb_key_bytes
  rcases p.private_key with _ | s <;> rcases p.private_key_file with _ | f <;>
    rcases p.private_key_format with _ | _ | _ <;>
    first | exact noWr_pure _ | exact noWr_throw _

theorem noWr_append_block_from (a : AppendThirdPartyBlock) : noWr (append_block_from a) := by
  intro env
  unfold append_block_from
  rcases a.block_contents_file with _ | f <;> rcases a.block_contents with _ | s <;>
    first
      | rfl
      | (by_cases hf : f = "-" <;> simp [hf, pure_apply, writesOf])

theorem noWr_keypair_private_key_from (c : KeyPairCmd) : noWr (keypair_private_key_from c) := by
  unfold keypair_private_key_from
  rcases c.from_private_key with _ | s <;> rcases c.from_file with _ | f <;>
    rcases c.from_format with _ | _ | _ <;>
    first | exact noWr_pure _ | exact noWr_throw _

theorem noWr_ensure (d : DatalogInput) (b : BiscuitBytes) :
    noWr (ensure_no_input_conflict d b) := by
  unfold ensure_no_input_conflict
  split
  · exact noWr_throw _
  · exact noWr_pure _

theorem noWr_ensure_third_party (pay tok : BiscuitBytes) :
    noWr (ensure_no_input_conflict_third_party pay tok) := by
  unfold ensure_no_input_conflict_third_party
  split
  · exact noWr_throw _
  · exact noWr_pure _

theorem noWr_encode_token_output (raw : Bool) (b : BiscuitH) :
    noWr (encode_token_output raw b) := by
  unfold encode_token_output biscuit_to_base64_bytes
  cases raw
  · exact noWr_bind (noWr_withEnv _ _) fun _ => noWr_pure _
  · exact noWr_withEnv _ _

theorem noWr_encode_request_output (raw : Bool) (r : RequestH) :
    noWr (encode_request_output raw r) := by
  unfold encode_request_output
  cases raw
  · exact noWr_bind (noWr_withEnv _ _) fun _ => noWr_pure _
  · exact noWr_withEnv _ _

theorem noWr_encode_block_output (raw : Bool) (b : BlockH) :
    noWr (encode_block_output raw b) := by
  unfold encode_block_output
  cases raw
  · exact noWr_bind (noWr_withEnv _ _) fun _ => noWr_pure _
  · exact noWr_withEnv _ _

theorem noWr_encode_generate_output (raw : Bool) (b : BiscuitH) :
    noWr (encode_generate_output raw b) := by
  unfold encode_generate_output
  cases raw
  · exact noWr_bind (noWr_withEnv _ _) fun _ => noWr_pure _
  · exact noWr_withEnv _ _

theorem indep_read_private_key_from (kb : KeyBytes) (alg : Option Algorithm) :
    stdoutIndep (read_private_key_from kb alg) := by
  cases kb <;>
    first
      | exact indep_bind (indep_withEnv _ _ fun _ _ => rfl) fun _ =>
          indep_withEnv _ _ fun _ _ => rfl
      | exact indep_bind indep_readStdin fun _ =>
          indep_bind (indep_withEnv _ _ fun _ _ => rfl) fun _ =>
            indep_withEnv _ _ fun _ _ => rfl
      | exact indep_bind (indep_readFile _) fun _ =>
          indep_bind (indep_withEnv _ _ fun _ _ => rfl) fun _ =>
            indep_withEnv _ _ fun _ _ => rfl

theorem indep_read_datalog_text (d : DatalogInput) : stdoutIndep (read_datalog_text d) := by
  cases d <;>
    first
      | exact indep_bind indep_readStdin fun _ => indep_withEnv _ _ fun _ _ => rfl
      | exact indep_bind (indep_readFile _) fun _ => indep_withEnv _ _ fun _ _ => rfl
      | exact indep_pure _
      | exact indep_openEditor

theorem indep_read_authority_from (d : DatalogInput) (ps : List Param)
    (ctx : Option String) (b : BuilderH) : stdoutIndep (read_authority_from d ps ctx b) :=
  indep_bind (indep_read_datalog_text d) fun _ => indep_withEnv _ _ fun _ _ => rfl

theorem indep_read_block_from (d : DatalogInput) (ps : List Param)
    (ctx : Option String) (b : BuilderH) : stdoutIndep (read_block_from d ps ctx b) :=
  indep_bind (indep_read_datalog_text d) fun _ => indep_withEnv _ _ fun _ _ => rfl

theorem indep_biscuit_bytes_of (src : BiscuitBytes) : stdoutIndep (biscuit_bytes_of src) := by
  rcases src with f | ⟨f, p⟩ | s
  · cases f
    · exact indep_readStdin
    · exact indep_bind indep_readStdin fun _ => indep_liftOption _ _
  · cases f
    · exact indep_readFile _
    · exact indep_bind (indep_readFile _) fun _ => indep_liftOption _ _
  · exact indep_liftOption _ _

theorem indep_read_biscuit_from (src : BiscuitBytes) : stdoutIndep (read_biscuit_from src) :=
  indep_bind (indep_biscuit_bytes_of src) fun _ => indep_withEnv _ _ fun _ _ => rfl

theorem indep_read_request_from (src : BiscuitBytes) : stdoutIndep (read_request_from src) :=
  indep_bind (indep_biscuit_bytes_of src) fun _ => indep_withEnv _ _ fun _ _ => rfl

theorem indep_append_third_party_from (b : BiscuitH) (src : BiscuitBytes) :
    stdoutIndep (append_third_party_from b src) :=
  indep_bind (indep_biscuit_bytes_of src) fun _ => indep_withEnv _ _ fun _ _ => rfl

theorem indep_block_from_of_args (b : BlockArgs) : stdoutIndep (block_from_of_args b) := by
  intro env bb
  unfold block_from_of_args
  rcases b.block_file with _ | f <;> rcases b.block with _ | s <;> rfl

theorem indep_generate_key_bytes (p : PrivateKeyArgs) : stdoutIndep (generate_key_bytes p) := by
  intro env bb
  unfold generate_key_bytes
  rcases p.private_key with _ | s <;> rcases p.private_key_file with _ | f <;>
    rcases p.private_key_format with _ | _ | _ <;> rfl

theorem indep_g3pb_key_bytes (p : PrivateKeyArgs) : stdoutIndep (g3pb_key_bytes p) := by
  intro env bb
  unfold g3pb_key_bytes
  rcases p.private_key with _ | s <;> rcases p.private_key_file with _ | f <;>
    rcases p.private_key_format with _ | _ | _ <;> rfl

theorem indep_append_block_from (a : AppendThirdPartyBlock) :
    stdoutIndep (append_block_from a) := by
  intro env bb
  unfold append_block_from
  rcases a.block_contents_file with _ | f <;> rcases a.block_contents with _ | s <;>
    first
      | rfl
      | (by_cases hf : f = "-" <;> simp [hf, pure_apply])

theorem indep_keypair_private_key_from (c : KeyPairCmd) :
    stdoutIndep (keypair_private_key_from c) := by
  intro env bb
  unfold keypair_private_key_from
  rcases c.from_private_key with _ | s <;> rcases c.from_file with _ | f <;>
    rcases c.from_format with _ | _ | _ <;> rfl

theorem indep_ensure (d : DatalogInput) (b : BiscuitBytes) :
    stdoutIndep (ensure_no_input_conflict d b) := by
  intro env bb
  unfold ensure_no_input_conflict
  split <;> rfl

theorem indep_ensure_third_party (pay tok : BiscuitBytes) :
    stdoutIndep (ensure_no_input_conflict_third_party pay tok) := by
  intro env bb
  unfold ensure_no_input_conflict_third_party
  split <;> rfl

theorem indep_encode_token_output (raw : Bool) (b : BiscuitH) :
    stdoutIndep (encode_token_output raw b) := by
  unfold encode_token_output biscuit_to_base64_bytes biscuit_to_vec
  cases raw
  · exact indep_bind (indep_withEnv _ _ fun _ _ => rfl) fun _ => indep_pure _
  · exact indep_withEnv _ _ fun _ _ => rfl

theorem indep_encode_request_output (raw : Bool) (r : RequestH) :
    stdoutIndep (encode_request_output raw r) := by
  unfold encode_request_output request_serialize
  cases raw
  · exact indep_bind (indep_withEnv _ _ fun _ _ => rfl) fun _ => indep_pure _
  · exact indep_withEnv _ _ fun _ _ => rfl

theorem indep_encode_block_output (raw : Bool) (b : BlockH) :
    stdoutIndep (encode_block_output raw b) := by
  unfold encode_block_output block_serialize
  cases raw
  · exact indep_bind (indep_withEnv _ _ fun _ _ => rfl) fun _ => indep_pure _
  · exact indep_withEnv _ _ fun _ _ => rfl

theorem indep_encode_generate_output (raw : Bool) (b : BiscuitH) :
    stdoutIndep (encode_generate_output raw b) := by
  unfold encode_generate_output
  cases raw
  · exact indep_bind (indep_withEnv _ _ fun _ _ => rfl) fun _ => indep_pure _
  · exact indep_withEnv _ _ fun _ _ => rfl

theorem noWr_with_ttl_check (b : BuilderH) (o : Option Ttl) : noWr (with_ttl_check b o) := by
  cases o
  · exact noWr_pure _
  · exact noWr_envPure _

theorem noWr_with_root_key_id (b : BuilderH) (o : Option Nat) : noWr (with_root_key_id b o) := by
  cases o
  · exact noWr_pure _
  · exact noWr_envPure _

theorem noWr_keypair_from_private_key_result (r : Except Err PrivateKeyH) :
    noWr (keypair_from_private_key_result r) := by
  cases r
  · exact noWr_throw _
  · exact noWr_envPure _

theorem noWr_unwrap_private_key (r : Except Err PrivateKeyH) : noWr (unwrap_private_key r) := by
  cases r
  · exact noWr_throw _
  · exact noWr_pure _

theorem noWr_keypair_read_private_key (o : Option KeyBytes) (alg : Option Algorithm) :
    noWr (keypair_read_private_key o alg) := by
  cases o
  · exact noWr_pure _
  · exact noWr_bind (noWr_read_private_key_from _ _) fun _ => noWr_pure _

theorem noWr_keypair_derive (o : Option PrivateKeyH) (alg : Algorithm) :
    noWr (keypair_derive o alg) := by
  cases o
  · exact noWr_envPure _
  · exact noWr_envPure _

theorem indep_with_ttl_check (b : BuilderH) (o : Option Ttl) :
    stdoutIndep (with_ttl_check b o) := by
  cases o
  · exact indep_pure _
  · exact indep_envPure _ fun _ _ => rfl

theorem indep_with_root_key_id (b : BuilderH) (o : Option Nat) :
    stdoutIndep (with_root_key_id b o) := by
  cases o
  · exact indep_pure _
  · exact indep_envPure _ fun _ _ => rfl

theorem indep_keypair_from_private_key_result (r : Except Err PrivateKeyH) :
    stdoutIndep (keypair_from_private_key_result r) := by
  cases r
  · exact indep_throw _
  · exact indep_envPure _ fun _ _ => rfl

theorem indep_unwrap_private_key (r : Except Err PrivateKeyH) :
    stdoutIndep (unwrap_private_key r) := by
  cases r
  · exact indep_throw _
  · exact indep_pure _

theorem cleanFail_handle_generate (g : Generate) : cleanFail (handle_generate g) := by
  unfold handle_generate
  refine cleanFail_bind (noWr_generate_key_bytes _) fun kb => ?_
  refine cleanFail_bind (noWr_attempt (noWr_read_private_key_from _ _)) fun pk => ?_
  refine cleanFail_bind (noWr_keypair_from_private_key_result _) fun root => ?_
  refine cleanFail_bind (noWr_read_authority_from _ _ _ _) fun b1 => ?_
  refine cleanFail_bind (noWr_with_ttl_check _ _) fun b2 => ?_
  refine cleanFail_bind (noWr_with_root_key_id _ _) fun b3 => ?_
  refine cleanFail_bind (noWr_withEnv _ _) fun bi => ?_
  refine cleanFail_bind (noWr_encode_generate_output _ _) fun enc => ?_
  exact cleanFail_of_neverFails (neverFails_discard _)

theorem cleanFail_handle_attenuate (a : Attenuate) : cleanFail (handle_attenuate a) := by
  unfold handle_attenuate
  refine cleanFail_bind (noWr_block_from_of_args _) fun bf => ?_
  refine cleanFail_bind (noWr_ensure _ _) fun _ => ?_
  refine cleanFail_bind (noWr_read_biscuit_from _) fun bi => ?_
  refine cleanFail_bind (noWr_read_block_from _ _ _ _) fun b1 => ?_
  refine cleanFail_bind (noWr_with_ttl_check _ _) fun b2 => ?_
  refine cleanFail_bind (noWr_withEnv _ _) fun nb => ?_
  refine cleanFail_bind (noWr_encode_token_output _ _) fun enc => ?_
  exact cleanFail_of_neverFails (neverFails_discard _)

theorem cleanFail_handle_generate_request (g : GenerateThirdPartyBlockRequest) :
    cleanFail (handle_generate_request g) := by
  unfold handle_generate_request
  refine cleanFail_bind (noWr_read_biscuit_from _) fun bi => ?_
  refine cleanFail_bind (noWr_withEnv _ _) fun r => ?_
  refine cleanFail_bind (noWr_encode_request_output _ _) fun enc => ?_
  exact cleanFail_of_neverFails (neverFails_discard _)

theorem cleanFail_handle_generate_third_party_block (g : GenerateThirdPartyBlock) :
    cleanFail (handle_generate_third_party_block g) := by
  unfold handle_generate_third_party_block
  refine cleanFail_bind (noWr_block_from_of_args _) fun bf => ?_
  refine cleanFail_bind (noWr_ensure _ _) fun _ => ?_
  refine cleanFail_bind (noWr_g3pb_key_bytes _) fun kb => ?_
  refine cleanFail_bind (noWr_attempt (noWr_read_private_key_from _ _)) fun pk => ?_
  refine cleanFail_bind (noWr_read_request_from _) fun r => ?_
  refine cleanFail_bind (noWr_read_block_from _ _ _ _) fun b1 => ?_
  refine cleanFail_bind (noWr_with_ttl_check _ _) fun b2 => ?_
  refine cleanFail_bind (noWr_unwrap_private_key _) fun k => ?_
  refine cleanFail_bind (noWr_withEnv _ _) fun blk => ?_
  refine cleanFail_bind (noWr_encode_block_output _ _) fun enc => ?_
  exact cleanFail_of_neverFails (neverFails_discard _)

theorem cleanFail_handle_append_third_party_block (a : AppendThirdPartyBlock) :
    cleanFail (handle_append_third_party_block a) := by
  unfold handle_append_third_party_block
  refine cleanFail_bind (noWr_append_block_from _) fun bf => ?_
  refine cleanFail_bind (noWr_ensure_third_party _ _) fun _ => ?_
  refine cleanFail_bind (noWr_read_biscuit_from _) fun bi => ?_
  refine cleanFail_bind (noWr_append_third_party_from _ _) fun nb => ?_
  refine cleanFail_bind (noWr_encode_token_output _ _) fun enc => ?_
  exact cleanFail_of_neverFails (neverFails_discard _)

theorem cleanFail_handle_seal (s : Seal) : cleanFail (handle_seal s) := by
  unfold handle_seal
  refine cleanFail_bind (noWr_read_biscuit_from _) fun bi => ?_
  refine cleanFail_bind (noWr_withEnv _ _) fun nb => ?_
  refine cleanFail_bind (noWr_encode_token_output _ _) fun enc => ?_
  exact cleanFail_of_neverFails (neverFails_discard _)

theorem cleanFail_keypair_output (c : KeyPairCmd) (fp : Bool) (kp : KeyPairH)
    (h : ¬(c.only_private_key = false ∧ c.only_public_key = false ∧
      c.key_output_format = KeyFormat.pem)) :
    cleanFail (keypair_output c fp kp) := by
  unfold keypair_output
  rcases hpriv : c.only_private_key <;> rcases hpub : c.only_public_key <;>
    rcases hfmt : c.key_output_format
  · exact cleanFail_of_noWr (noWr_throw _)
  · refine cleanFail_of_neverFails ?_
    refine neverFails_bind (neverFails_println _) fun _ => ?_
    refine neverFails_bind (neverFails_envPure _) fun s1 => ?_
    refine neverFails_bind (neverFails_println _) fun _ => ?_
    refine neverFails_bind (neverFails_envPure _) fun s2 => ?_
    exact neverFails_println _
  · exact absurd ⟨hpriv, hpub, hfmt⟩ h
  · exact cleanFail_of_neverFails
      (neverFails_bind (neverFails_envPure _) fun b => neverFails_discard _)
  · exact cleanFail_of_neverFails
      (neverFails_bind (neverFails_envPure _) fun s => neverFails_println _)
  · exact cleanFail_bind (noWr_withEnv _ _) fun s =>
      cleanFail_of_neverFails (neverFails_println _)
  · exact cleanFail_of_neverFails
      (neverFails_bind (neverFails_envPure _) fun b => neverFails_discard _)
  · exact cleanFail_of_neverFails
      (neverFails_bind (neverFails_envPure _) fun s => neverFails_println _)
  · exact cleanFail_bind (noWr_withEnv _ _) fun s =>
      cleanFail_of_neverFails (neverFails_println _)
  · exact cleanFail_of_noWr (noWr_throw _)
  · exact cleanFail_of_noWr (noWr_throw _)
  · exact cleanFail_of_noWr (noWr_throw _)

theorem cleanFail_handle_keypair (c : KeyPairCmd)
    (h : ¬(c.only_private_key = false ∧ c.only_public_key = false ∧
      c.key_output_format = KeyFormat.pem)) :
    cleanFail (handle_keypair c) := by
  unfold handle_keypair
  refine cleanFail_bind (noWr_keypair_private_key_from c) fun pkf => ?_
  refine cleanFail_bind (noWr_keypair_read_private_key _ _) fun pk => ?_
  refine cleanFail_bind (noWr_keypair_derive _ _) fun kp => ?_
  exact cleanFail_keypair_output c _ kp h

theorem indep_handle_generate (g : Generate) : stdoutIndep (handle_generate g) := by
  unfold handle_generate
  refine indep_bind (indep_generate_key_bytes _) fun kb => ?_
  refine indep_bind (indep_attempt (indep_read_private_key_from _ _)) fun pk => ?_
  refine indep_bind (indep_keypair_from_private_key_result _) fun root => ?_
  refine indep_bind (indep_read_authority_from _ _ _ _) fun b1 => ?_
  refine indep_bind (indep_with_ttl_check _ _) fun b2 => ?_
  refine indep_bind (indep_with_root_key_id _ _) fun b3 => ?_
  refine indep_bind (indep_withEnv _ _ fun _ _ => rfl) fun bi => ?_
  refine indep_bind (indep_encode_generate_output _ _) fun enc => ?_
  exact indep_discard_write enc

theorem indep_handle_attenuate (a : Attenuate) : stdoutIndep (handle_attenuate a) := by
  unfold handle_attenuate
  refine indep_bind (indep_block_from_of_args _) fun bf => ?_
  refine indep_bind (indep_ensure _ _) fun _ => ?_
  refine indep_bind (indep_read_biscuit_from _) fun bi => ?_
  refine indep_bind (indep_read_block_from _ _ _ _) fun b1 => ?_
  refine indep_bind (indep_with_ttl_check _ _) fun b2 => ?_
  refine indep_bind (indep_withEnv _ _ fun _ _ => rfl) fun nb => ?_
  refine indep_bind (indep_encode_token_output _ _) fun enc => ?_
  exact indep_discard_write enc

theorem indep_handle_generate_request (g : GenerateThirdPartyBlockRequest) :
    stdoutIndep (handle_generate_request g) := by
  unfold handle_generate_request
  refine indep_bind (indep_read_biscuit_from _) fun bi => ?_
  refine indep_bind (indep_withEnv _ _ fun _ _ => rfl) fun r => ?_
  refine indep_bind (indep_encode_request_output _ _) fun enc => ?_
  exact indep_discard_write enc

theorem indep_handle_generate_third_party_block (g : GenerateThirdPartyBlock) :
    stdoutIndep (handle_generate_third_party_block g) := by
  unfold handle_generate_third_party_block
  refine indep_bind (indep_block_from_of_args _) fun bf => ?_
  refine indep_bind (indep_ensure _ _) fun _ => ?_
  refine indep_bind (indep_g3pb_key_bytes _) fun kb => ?_
  refine indep_bind (indep_attempt (indep_read_private_key_from _ _)) fun pk => ?_
  refine indep_bind (indep_read_request_from _) fun r => ?_
  refine indep_bind (indep_read_block_from _ _ _ _) fun b1 => ?_
  refine indep_bind (indep_with_ttl_check _ _) fun b2 => ?_
  refine indep_bind (indep_unwrap_private_key _) fun k => ?_
  refine indep_bind (indep_withEnv _ _ fun _ _ => rfl) fun blk => ?_
  refine indep_bind (indep_encode_block_output _ _) fun enc => ?_
  exact indep_discard_write enc

theorem indep_handle_append_third_party_block (a : AppendThirdPartyBlock) :
    stdoutIndep (handle_append_third_party_block a) := by
  unfold handle_append_third_party_block
  refine indep_bind (indep_append_block_from _) fun bf => ?_
  refine indep_bind (indep_ensure_third_party _ _) fun _ => ?_
  refine indep_bind (indep_read_biscuit_from _) fun bi => ?_
  refine indep_bind (indep_append_third_party_from _ _) fun nb => ?_
  refine indep_bind (indep_encode_token_output _ _) fun enc => ?_
  exact indep_discard_write enc

theorem indep_handle_seal (s : Seal) : stdoutIndep (handle_seal s) := by
  unfold handle_seal
  refine indep_bind (indep_read_biscuit_from _) fun bi => ?_
  refine indep_bind (indep_withEnv _ _ fun _ _ => rfl) fun nb => ?_
  refine indep_bind (indep_encode_token_output _ _) fun enc => ?_
  exact indep_discard_write enc

theorem isErr_bind {m : M α} {f : α → M β} {env : Env}
    (h : ∀ a, isErr ((f a) env).1 = true) : isErr ((m >>= f) env).1 = true := by
  rcases hm : m env with ⟨r, t⟩
  cases r with
  | ok a => rw [bind_ok hm]; exact h a
  | error e => rw [bind_err hm]; rfl

/-- A concrete environment in which every stream has content and every
collaborator call succeeds; used to evaluate theorems on concrete inputs. -/
def envW : Env where
  stdinData := some [1]
  fileData := fun _ => some [2]
  editorData := some "check if true"
  stdoutOk := true
  utf8Decode := fun _ => some "check if true"
  hexKeyDecode := fun _ => some [3]
  pemKeyDecode := fun _ => some [4]
  keyDecode := fun _ b => some b
  privateKeyOfBytes := fun _ _ => some 7
  keypairOfPrivate := fun k => k + 1
  keypairNew := fun _ => 9
  privateToBytes := fun kp => [kp, 0]
  publicToBytes := fun kp => [kp, 1]
  privateToPrefixedHex := fun _ => "ed25519-private/aa"
  publicDisplay := fun _ => "ed25519/bb"
  privateToPem := fun _ => some "private pem"
  publicToPem := fun _ => some "public pem"
  buildAuthority := fun _ _ _ b => some (b + 10)
  buildBlock := fun _ _ _ b => some (b + 20)
  checkExpiration := fun b _ => b + 1
  rootKeyIdSet := fun b _ => b + 2
  biscuitBuild := fun _ _ => some 30
  biscuitParse := fun _ => some 31
  requestParse := fun _ => some 32
  biscuitAppend := fun b _ => some (b + 3)
  biscuitSeal := fun b => some (b + 4)
  biscuitToVec := fun _ => some [104, 105]
  thirdPartyRequest := fun _ => some 33
  requestSerialize := fun _ => some [106, 107]
  createBlock := fun _ _ _ => some 34
  blockSerialize := fun _ => some [108]
  appendThirdParty := fun b _ => some (b + 5)

/-- The environment `envW` with a failing PEM encoder for the private key. -/
def envPemFail : Env := { envW with privateToPem := fun _ => none }

/-- The environment `envW` with a broken stdout stream. -/
def envNoStdout : Env := { envW with stdoutOk := false }

/-- A `keypair` invocation with all defaults: no input key, hex output for
both keys. -/
def cHexBoth : KeyPairCmd where
  from_private_key := none
  from_file := none
  from_format := KeyFormat.hex
  from_algorithm := none
  key_algorithm := Algorithm.ed25519
  key_output_format := KeyFormat.hex
  only_public_key := false
  only_private_key := false

/-- A `keypair` invocation requesting both keys in PEM format. -/
def cPemBoth : KeyPairCmd := { cHexBoth with key_output_format := KeyFormat.pem }

/-- C1: in every command that reads a token, request or third-party block
payload from a file argument (attenuate, seal, inspect,
generate-third-party-block-request, generate-third-party-block,
append-third-party-block), a path equal to the stdin sentinel is constructed
as the FromStdin source, and no argument value ever constructs FromFile with
the literal filename of the sentinel.  `biscuit_from_of_args` is the shared
construction of attenuate, seal, generate-third-party-block-request and
append-third-party-block; `inspect_biscuit_from` is the spec-modelled
inspect construction. -/
theorem c1_stdin_sentinel_never_literal_file :
    (∀ args : BiscuitInputArgs, args.biscuit_file = "-" →
      biscuit_from_of_args args =
        BiscuitBytes.fromStdin
          (if args.raw_input then BiscuitFormat.rawBiscuit else BiscuitFormat.base64Biscuit)) ∧
    (∀ (args : BiscuitInputArgs) (fmt : BiscuitFormat),
      biscuit_from_of_args args ≠ BiscuitBytes.fromFile fmt "-") ∧
    (∀ g : GenerateThirdPartyBlock, g.request_file = "-" →
      g3pb_request_from g =
        BiscuitBytes.fromStdin
          (if g.raw_input then BiscuitFormat.rawBiscuit else BiscuitFormat.base64Biscuit)) ∧
    (∀ (g : GenerateThirdPartyBlock) (fmt : BiscuitFormat),
      g3pb_request_from g ≠ BiscuitBytes.fromFile fmt "-") ∧
    (∀ (a : AppendThirdPartyBlock) (env : Env),
      a.block_contents_file = some "-" → a.block_contents = none →
      append_block_from a env =
        (Except.ok (BiscuitBytes.fromStdin
          (if a.raw_block_contents then BiscuitFormat.rawBiscuit
            else BiscuitFormat.base64Biscuit)), [])) ∧
    (∀ (a : AppendThirdPartyBlock) (env : Env) (fmt : BiscuitFormat) (t : List Effect),
      append_block_from a env ≠ (Except.ok (BiscuitBytes.fromFile fmt "-"), t)) ∧
    (∀ args : BiscuitInputArgs, args.biscuit_file = "-" →
      inspect_biscuit_from args =
        BiscuitBytes.fromStdin
          (if args.raw_input then BiscuitFormat.rawBiscuit else BiscuitFormat.base64Biscuit)) := by
  have hmain : ∀ args : BiscuitInputArgs, args.biscuit_file = "-" →
      biscuit_from_of_args args =
        BiscuitBytes.fromStdin
          (if args.raw_input then BiscuitFormat.rawBiscuit else BiscuitFormat.base64Biscuit) := by
    intro args h
    simp [biscuit_from_of_args, h]
  have hne : ∀ (args : BiscuitInputArgs) (fmt : BiscuitFormat),
      biscuit_from_of_args args ≠ BiscuitBytes.fromFile fmt "-" := by
    intro args fmt hEq
    unfold biscuit_from_of_args at hEq
    by_cases h : args.biscuit_file = "-" <;> simp [h] at hEq
  refine ⟨hmain, hne, ?_, ?_, ?_, ?_, fun args h => hmain args h⟩
  · intro g h
    simp [g3pb_request_from, h]
  · intro g fmt hEq
    unfold g3pb_request_from at hEq
    by_cases h : g.request_file = "-" <;> simp [h] at hEq
  · intro a env h1 h2
    unfold append_block_from
    rw [h1, h2]
    simp [pure_apply]
  · intro a env fmt t hEq
    unfold append_block_from at hEq
    rcases h1 : a.block_contents_file with _ | f <;> rw [h1] at hEq <;>
      rcases h2 : a.block_contents with _ | s <;> rw [h2] at hEq <;>
      simp [throwM_apply, pure_apply] at hEq
    by_cases hf : f = "-" <;> simp [hf, pure_apply] at hEq

/-- Witness for C1 at a concrete sentinel path. -/
theorem c1_witness :
    biscuit_from_of_args { biscuit_file := "-", raw_input := false } =
      BiscuitBytes.fromStdin BiscuitFormat.base64Biscuit :=
  c1_stdin_sentinel_never_literal_file.1 { biscuit_file := "-", raw_input := false } rfl

/-- C2: when both the token source and the new-block source of attenuate
(resp. append-third-party-block) are bound to stdin, the command fails with
MultipleStdinConsumers.  The CLI argument order is already abstracted away in
the parsed argument record, so the outcome cannot depend on which argument
was bound to stdin first; the conflict test itself is symmetric in the two
sources. -/
theorem c2_dual_stdin_multiple_consumers :
    (∀ (a : Attenuate) (env : Env),
      a.biscuit_input_args.biscuit_file = "-" →
      a.block_args.block_file = some "-" → a.block_args.block = none →
      (handle_attenuate a env).1 = Except.error Err.multipleStdinConsumers) ∧
    (∀ (x : AppendThirdPartyBlock) (env : Env),
      x.biscuit_input_args.biscuit_file = "-" →
      x.block_contents_file = some "-" → x.block_contents = none →
      (handle_append_third_party_block x env).1 = Except.error Err.multipleStdinConsumers) := by
  constructor
  · intro a env h1 h2 h3
    unfold handle_attenuate block_from_of_args biscuit_from_of_args
    rw [h1, h2, h3]
    rfl
  · intro x env h1 h2 h3
    unfold handle_append_third_party_block append_block_from biscuit_from_of_args
    rw [h1, h2, h3]
    rfl

/-- A concrete attenuate invocation with both the token and the block bound
to stdin. -/
def attDual : Attenuate where
  biscuit_input_args := { biscuit_file := "-", raw_input := false }
  raw_output := false
  block_args := { block := none, block_file := some "-", context := none, add_ttl := none }
  param_arg := { param := [] }

/-- Witness for C2 at concrete arguments. -/
theorem c2_witness :
    (handle_attenuate attDual envW).1 = Except.error Err.multipleStdinConsumers :=
  c2_dual_stdin_multiple_consumers.1 attDual envW rfl rfl rfl

/-- C3: in the three conflict-validating commands (attenuate,
generate-third-party-block, append-third-party-block), when the stdin
conflict is present the command fails with MultipleStdinConsumers and its
effect trace is empty: no file, stdin or editor stream was touched, so
validation preceded all resolution. -/
theorem c3_validation_precedes_resolution :
    (∀ (a : Attenuate) (env : Env),
      a.biscuit_input_args.biscuit_file = "-" →
      a.block_args.block_file = some "-" → a.block_args.block = none →
      handle_attenuate a env = (Except.error Err.multipleStdinConsumers, [])) ∧
    (∀ (g : GenerateThirdPartyBlock) (env : Env),
      g.request_file = "-" →
      g.block_args.block_file = some "-" → g.block_args.block = none →
      handle_generate_third_party_block g env =
        (Except.error Err.multipleStdinConsumers, [])) ∧
    (∀ (x : AppendThirdPartyBlock) (env : Env),
      x.biscuit_input_args.biscuit_file = "-" →
      x.block_contents_file = some "-" → x.block_contents = none →
      handle_append_third_party_block x env =
        (Except.error Err.multipleStdinConsumers, [])) := by
  refine ⟨?_, ?_, ?_⟩
  · intro a env h1 h2 h3
    unfold handle_attenuate block_from_of_args biscuit_from_of_args
    rw [h1, h2, h3]
    rfl
  · intro g env h1 h2 h3
    unfold handle_generate_third_party_block block_from_of_args g3pb_request_from
    rw [h1, h2, h3]
    rfl
  · intro x env h1 h2 h3
    unfold handle_append_third_party_block append_block_from biscuit_from_of_args
    rw [h1, h2, h3]
    rfl

/-- A concrete hex-literal private-key argument group. -/
def pkLitHex : PrivateKeyArgs where
  private_key := some "aa"
  private_key_file := none
  private_key_format := KeyFormat.hex
  private_key_algorithm := none

/-- A concrete stdin-bound block argument group. -/
def blockDash : BlockArgs where
  block := none
  block_file := some "-"
  context := none
  add_ttl := none

/-- A concrete generate-third-party-block invocation with both the request
and the block bound to stdin. -/
def g3pbDual : GenerateThirdPartyBlock where
  request_file := "-"
  raw_input := false
  private_key_args := pkLitHex
  raw_output := false
  block_args := blockDash
  param_arg := { param := [] }

/-- Witness for C3 at concrete arguments. -/
theorem c3_witness :
    handle_generate_third_party_block g3pbDual envW =
      (Except.error Err.multipleStdinConsumers, []) :=
  c3_validation_precedes_resolution.2.1 g3pbDual envW rfl rfl rfl

/-- Counterexample to C4: a concrete failing keypair run that has already
written to stdout.  With both keys requested in PEM format, the command
prints the provenance line before invoking the fallible PEM encoder
(main.rs 94-104); when that delegate call fails, the run ends in an error
with the provenance line already on stdout. -/
theorem c4_counterexample_keypair_pem_preamble :
    isErr (handle_keypair cPemBoth envPemFail).1 = true ∧
    writesOf (handle_keypair cPemBoth envPemFail).2 =
      [strBytes "Generating a new random keypair" ++ [10]] ∧
    writesOf (handle_keypair cPemBoth envPemFail).2 ≠ [] := by
  have h2 : writesOf (handle_keypair cPemBoth envPemFail).2 =
      [strBytes "Generating a new random keypair" ++ [10]] := rfl
  refine ⟨rfl, h2, ?_⟩
  rw [h2]
  exact List.cons_ne_nil _ _

/-- C4 (amended): while stdout is healthy, a run of any subcommand that ends
in an error has performed no stdout write — for all of generate, attenuate,
generate-third-party-block-request, generate-third-party-block,
append-third-party-block and seal unconditionally, and for keypair in every
output shape except both-keys-in-PEM (where a provenance line precedes the
fallible PEM encoding).  In particular the final payload write happens only
after every preceding step has succeeded. -/
theorem c4_no_output_on_failure_amended :
    (∀ (g : Generate) (env : Env), env.stdoutOk = true →
      isErr (handle_generate g env).1 = true → writesOf (handle_generate g env).2 = []) ∧
    (∀ (a : Attenuate) (env : Env), env.stdoutOk = true →
      isErr (handle_attenuate a env).1 = true → writesOf (handle_attenuate a env).2 = []) ∧
    (∀ (g : GenerateThirdPartyBlockRequest) (env : Env), env.stdoutOk = true →
      isErr (handle_generate_request g env).1 = true →
      writesOf (handle_generate_request g env).2 = []) ∧
    (∀ (g : GenerateThirdPartyBlock) (env : Env), env.stdoutOk = true →
      isErr (handle_generate_third_party_block g env).1 = true →
      writesOf (handle_generate_third_party_block g env).2 = []) ∧
    (∀ (x : AppendThirdPartyBlock) (env : Env), env.stdoutOk = true →
      isErr (handle_append_third_party_block x env).1 = true →
      writesOf (handle_append_third_party_block x env).2 = []) ∧
    (∀ (s : Seal) (env : Env), env.stdoutOk = true →
      isErr (handle_seal s env).1 = true → writesOf (handle_seal s env).2 = []) ∧
    (∀ (c : KeyPairCmd) (env : Env),
      ¬(c.only_private_key = false ∧ c.only_public_key = false ∧
        c.key_output_format = KeyFormat.pem) →
      env.stdoutOk = true → isErr (handle_keypair c env).1 = true →
      writesOf (handle_keypair c env).2 = []) :=
  ⟨fun g => cleanFail_handle_generate g,
   fun a => cleanFail_handle_attenuate a,
   fun g => cleanFail_handle_generate_request g,
   fun g => cleanFail_handle_generate_third_party_block g,
   fun x => cleanFail_handle_append_third_party_block x,
   fun s => cleanFail_handle_seal s,
   fun c env h hok herr => cleanFail_handle_keypair c h env hok herr⟩

/-- Witness for the amended C4: a concrete failing seal run (the input file
holds bytes that are not base64) writes nothing. -/
theorem c4_witness :
    writesOf (handle_seal
      { biscuit_input_args := { biscuit_file := "x", raw_input := false }, raw_output := false }
      envW).2 = [] :=
  c4_no_output_on_failure_amended.2.2.2.2.2.1
    { biscuit_input_args := { biscuit_file := "x", raw_input := false }, raw_output := false }
    envW rfl rfl

/-- C5: for every command that produces token/request/block bytes, the
output-encoding step emits the serialized payload unchanged when the raw
flag is set and the base64 text of those bytes otherwise, and base64-decoding
the non-raw output yields exactly the raw output.  `encode_token_output` is
shared by attenuate, append-third-party-block and seal;
`encode_request_output`, `encode_block_output` and `encode_generate_output`
are the corresponding steps of generate-third-party-block-request,
generate-third-party-block and generate. -/
theorem c5_output_encoder_roundtrip :
    (∀ (env : Env) (b : BiscuitH) (v : Bytes),
      env.biscuitToVec b = some v → (∀ x ∈ v, x < 256) →
      (encode_token_output true b env).1 = Except.ok v ∧
      (encode_token_output false b env).1 = Except.ok (base64Encode v) ∧
      base64Decode (base64Encode v) = some v) ∧
    (∀ (env : Env) (r : RequestH) (v : Bytes),
      env.requestSerialize r = some v → (∀ x ∈ v, x < 256) →
      (encode_request_output true r env).1 = Except.ok v ∧
      (encode_request_output false r env).1 = Except.ok (base64Encode v) ∧
      base64Decode (base64Encode v) = some v) ∧
    (∀ (env : Env) (blk : BlockH) (v : Bytes),
      env.blockSerialize blk = some v → (∀ x ∈ v, x < 256) →
      (encode_block_output true blk env).1 = Except.ok v ∧
      (encode_block_output false blk env).1 = Except.ok (base64Encode v) ∧
      base64Decode (base64Encode v) = some v) ∧
    (∀ (env : Env) (b : BiscuitH) (v : Bytes),
      env.biscuitToVec b = some v → (∀ x ∈ v, x < 256) →
      (encode_generate_output true b env).1 = Except.ok v ∧
      (encode_generate_output false b env).1 = Except.ok (base64Encode v) ∧
      base64Decode (base64Encode v) = some v) := by
  refine ⟨?_, ?_, ?_, ?_⟩
  · intro env b v h hv
    refine ⟨?_, ?_, base64_roundtrip v hv⟩
    · simp [encode_token_output, biscuit_to_vec, withEnv, h]
    · simp [encode_token_output, biscuit_to_base64_bytes, biscuit_to_vec, bind_apply,
        withEnv, h, pure_apply]
  · intro env r v h hv
    refine ⟨?_, ?_, base64_roundtrip v hv⟩
    · simp [encode_request_output, request_serialize, withEnv, h]
    · simp [encode_request_output, request_serialize, bind_apply, withEnv, h, pure_apply]
  · intro env blk v h hv
    refine ⟨?_, ?_, base64_roundtrip v hv⟩
    · simp [encode_block_output, block_serialize, withEnv, h]
    · simp [encode_block_output, block_serialize, bind_apply, withEnv, h, pure_apply]
  · intro env b v h hv
    refine ⟨?_, ?_, base64_roundtrip v hv⟩
    · simp [encode_generate_output, withEnv, h]
    · simp [encode_generate_output, bind_apply, withEnv, h, pure_apply]

/-- Witness for C5 at a concrete payload. -/
theorem c5_witness :
    (encode_token_output false 0 envW).1 = Except.ok (base64Encode [104, 105]) ∧
    base64Decode (base64Encode [104, 105]) = some [104, 105] :=
  ⟨(c5_output_encoder_roundtrip.1 envW 0 [104, 105] rfl (by decide)).2.1,
   (c5_output_encoder_roundtrip.1 envW 0 [104, 105] rfl (by decide)).2.2⟩

/-- C6: a private key supplied as a command-line literal together with the
Raw key format is never accepted: keypair bails with its dedicated message,
and generate / generate-third-party-block hit the `unreachable!()` arm of
their key-source match, aborting the command. -/
theorem c6_raw_literal_key_rejected :
    (∀ (c : KeyPairCmd) (env : Env) (s : String),
      c.from_private_key = some s → c.from_format = KeyFormat.raw →
      (handle_keypair c env).1 =
        Except.error (Err.bailed "raw key input is only allowed from a file or stdin")) ∧
    (∀ (g : Generate) (env : Env) (s : String),
      g.private_key_args.private_key = some s →
      g.private_key_args.private_key_file = none →
      g.private_key_args.private_key_format = KeyFormat.raw →
      isErr (handle_generate g env).1 = true) ∧
    (∀ (g : GenerateThirdPartyBlock) (env : Env) (s : String),
      g.private_key_args.private_key = some s →
      g.private_key_args.private_key_file = none →
      g.private_key_args.private_key_format = KeyFormat.raw →
      isErr (handle_generate_third_party_block g env).1 = true) := by
  refine ⟨?_, ?_, ?_⟩
  · intro c env s h1 h2
    unfold handle_keypair keypair_private_key_from
    rw [h1, h2]
    rcases hf : c.from_file with _ | f <;> rfl
  · intro g env s h1 h2 h3
    have hk : generate_key_bytes g.private_key_args = throwM Err.panicked := by
      unfold generate_key_bytes
      rw [h1, h2, h3]
    unfold handle_generate
    rw [hk]
    rfl
  · intro g env s h1 h2 h3
    have hk : g3pb_key_bytes g.private_key_args = throwM Err.panicked := by
      unfold g3pb_key_bytes
      rw [h1, h2, h3]
    unfold handle_generate_third_party_block
    rw [hk]
    refine isErr_bind fun bf => ?_
    refine isErr_bind fun _ => ?_
    rfl

/-- A concrete generate invocation with a literal key and the raw format. -/
def genRawLit : Generate where
  authority_file := none
  root_key_id := none
  param_arg := { param := [] }
  raw := false
  private_key_args := { pkLitHex with private_key_format := KeyFormat.raw }
  context := none
  add_ttl := none

/-- Witness for C6 at a concrete invocation. -/
theorem c6_witness : isErr (handle_generate genRawLit envW).1 = true :=
  c6_raw_literal_key_rejected.2.1 genRawLit envW "aa" rfl rfl rfl

/-- C7: keypair with the raw output format and neither only-public-key nor
only-private-key set always fails, and writes nothing to stdout. -/
theorem c7_keypair_raw_both_keys_rejected :
    ∀ (c : KeyPairCmd) (env : Env), env.stdoutOk = true →
      c.only_private_key = false → c.only_public_key = false →
      c.key_output_format = KeyFormat.raw →
      isErr (handle_keypair c env).1 = true ∧
      writesOf (handle_keypair c env).2 = [] := by
  intro c env hok h1 h2 h3
  have herr : isErr (handle_keypair c env).1 = true := by
    unfold handle_keypair
    refine isErr_bind fun pkf => ?_
    refine isErr_bind fun pk => ?_
    refine isErr_bind fun kp => ?_
    unfold keypair_output
    rw [h1, h2, h3]
    rfl
  refine ⟨herr, cleanFail_handle_keypair c ?_ env hok herr⟩
  intro hcon
  rw [h3] at hcon
  cases hcon.2.2

/-- Witness for C7 at a concrete invocation. -/
theorem c7_witness :
    isErr (handle_keypair { cHexBoth with key_output_format := KeyFormat.raw } envW).1 = true ∧
    writesOf (handle_keypair { cHexBoth with key_output_format := KeyFormat.raw } envW).2 = [] :=
  c7_keypair_raw_both_keys_rejected { cHexBoth with key_output_format := KeyFormat.raw }
    envW rfl rfl rfl rfl

/-- C8: with only-private-key set and the raw output format, the keypair
output stage writes exactly the private key's raw bytes to stdout — one
write, equal to the key collaborator's byte string, with no trailing
newline or other text (so the output length is the key's byte length). -/
theorem c8_keypair_only_private_raw_exact_bytes :
    ∀ (c : KeyPairCmd) (fp : Bool) (kp : KeyPairH) (env : Env),
      c.only_private_key = true → c.only_public_key = false →
      c.key_output_format = KeyFormat.raw →
      keypair_output c fp kp env =
        (Except.ok (), [Effect.writeStdoutEff (env.privateToBytes kp)]) := by
  intro c fp kp env h1 h2 h3
  unfold keypair_output
  rw [h1, h2, h3]
  rfl

/-- Witness for C8 at a concrete invocation. -/
theorem c8_witness :
    keypair_output
      { cHexBoth with only_private_key := true, key_output_format := KeyFormat.raw }
      false 5 envW = (Except.ok (), [Effect.writeStdoutEff [5, 0]]) :=
  c8_keypair_only_private_raw_exact_bytes
    { cHexBoth with only_private_key := true, key_output_format := KeyFormat.raw }
    false 5 envW rfl rfl rfl

/-- C9: in generate and generate-third-party-block a private-key file path
equal to the stdin sentinel is constructed as FromFile with the literal
filename of the sentinel and never as FromStdin, whereas keypair's from-file
path equal to the sentinel is constructed as FromStdin. -/
theorem c9_key_file_dash_literal_vs_keypair :
    (∀ (p : PrivateKeyArgs) (env : Env),
      p.private_key = none → p.private_key_file = some "-" →
      generate_key_bytes p env =
        (Except.ok (KeyBytes.fromFile p.private_key_format "-"), []) ∧
      ∀ f : KeyFormat, generate_key_bytes p env ≠ (Except.ok (KeyBytes.fromStdin f), [])) ∧
    (∀ (p : PrivateKeyArgs) (env : Env),
      p.private_key = none → p.private_key_file = some "-" →
      g3pb_key_bytes p env =
        (Except.ok (KeyBytes.fromFile p.private_key_format "-"), []) ∧
      ∀ f : KeyFormat, g3pb_key_bytes p env ≠ (Except.ok (KeyBytes.fromStdin f), [])) ∧
    (∀ (c : KeyPairCmd) (env : Env),
      c.from_private_key = none → c.from_file = some "-" →
      keypair_private_key_from c env =
        (Except.ok (some (KeyBytes.fromStdin c.from_format)), [])) := by
  refine ⟨?_, ?_, ?_⟩
  · intro p env h1 h2
    have heq : generate_key_bytes p env =
        (Except.ok (KeyBytes.fromFile p.private_key_format "-"), []) := by
      unfold generate_key_bytes
      rw [h1, h2]
      rcases h3 : p.private_key_format <;> rfl
    refine ⟨heq, fun f hne => ?_⟩
    rw [heq] at hne
    simp at hne
  · intro p env h1 h2
    have heq : g3pb_key_bytes p env =
        (Except.ok (KeyBytes.fromFile p.private_key_format "-"), []) := by
      unfold g3pb_key_bytes
      rw [h1, h2]
      rcases h3 : p.private_key_format <;> rfl
    refine ⟨heq, fun f hne => ?_⟩
    rw [heq] at hne
    simp at hne
  · intro c env h1 h2
    unfold keypair_private_key_from
    rw [h1, h2]
    rfl

/-- Witness for C9 at a concrete invocation. -/
theorem c9_witness :
    generate_key_bytes { pkLitHex with private_key := none, private_key_file := some "-" } envW =
      (Except.ok (KeyBytes.fromFile KeyFormat.hex "-"), []) :=
  (c9_key_file_dash_literal_vs_keypair.1
    { pkLitHex with private_key := none, private_key_file := some "-" } envW rfl rfl).1

/-- Counterexample to C10: keypair's hex text output goes through `println!`,
which panics when writing to stdout fails, so the command does not return
success on a broken stdout; the same invocation succeeds when stdout is
healthy. -/
theorem c10_counterexample_keypair_println_panics :
    (handle_keypair cHexBoth envNoStdout).1 = Except.error Err.panicked ∧
    (handle_keypair cHexBoth envW).1 = Except.ok () :=
  ⟨rfl, rfl⟩

/-- C10 (amended): the commands whose final payload write uses
`let _ = io::stdout().write_all(..)` — generate, attenuate,
generate-third-party-block-request, generate-third-party-block,
append-third-party-block, seal, and likewise keypair's raw single-key
outputs — discard the write result: their entire behaviour is independent of
stdout health, and the discarding write itself always returns success.
keypair's hex/pem text outputs use `println!` instead, which panics on a
failed stdout write (see the counterexample). -/
theorem c10_stdout_failure_discarded_amended :
    (∀ (g : Generate) (env : Env) (b : Bool),
      handle_generate g { env with stdoutOk := b } = handle_generate g env) ∧
    (∀ (a : Attenuate) (env : Env) (b : Bool),
      handle_attenuate a { env with stdoutOk := b } = handle_attenuate a env) ∧
    (∀ (g : GenerateThirdPartyBlockRequest) (env : Env) (b : Bool),
      handle_generate_request g { env with stdoutOk := b } = handle_generate_request g env) ∧
    (∀ (g : GenerateThirdPartyBlock) (env : Env) (b : Bool),
      handle_generate_third_party_block g { env with stdoutOk := b } =
        handle_generate_third_party_block g env) ∧
    (∀ (x : AppendThirdPartyBlock) (env : Env) (b : Bool),
      handle_append_third_party_block x { env with stdoutOk := b } =
        handle_append_third_party_block x env) ∧
    (∀ (s : Seal) (env : Env) (b : Bool),
      handle_seal s { env with stdoutOk := b } = handle_seal s env) ∧
    (∀ (x : Bytes) (env : Env), (discardResult (writeStdoutAll x) env).1 = Except.ok ()) :=
  ⟨fun g => indep_handle_generate g,
   fun a => indep_handle_attenuate a,
   fun g => indep_handle_generate_request g,
   fun g => indep_handle_generate_third_party_block g,
   fun x => indep_handle_append_third_party_block x,
   fun s => indep_handle_seal s,
   fun _ _ => rfl⟩

end BiscuitCli
